import Mathlib

/-!
Verification of `pystdrules/script.py`, a linear orchestration utility that
probes directory permissions, provisions a Poetry environment, installs a
fixed list of developer tools and project dependencies, and runs five
external quality checks, logging each outcome.

The script is embedded shallowly: external effects (running a subprocess,
opening the log file, touching the probed directory) are resolved by an
environment oracle `Env`, and the observable state (log content, console
output, the ordered list of invoked commands, the working directory) is
threaded explicitly as `St`.  A raised Python exception is an `Except`
error carrying the state at the raise point, so traces are observable on
both normal and exceptional paths.
-/

namespace PyStdRules

/-- Outcome of a `subprocess` invocation that completed: exit code plus the
captured `stdout`/`stderr` text. -/
structure CmdResult where
  returncode : Nat
  stdout : String
  stderr : String
deriving DecidableEq

/-- Python exception classes distinguished by the script's handlers. -/
inductive PyError where
  /-- `subprocess.CalledProcessError` raised by `check=True` on a non-zero exit. -/
  | calledProcessError (r : CmdResult)
  /-- `FileNotFoundError` (missing executable, or missing log file/directory). -/
  | fileNotFoundError
  /-- `PermissionError`. -/
  | permissionError
  /-- any other exception class (e.g. `IsADirectoryError`, generic `OSError`). -/
  | otherError
deriving DecidableEq

/-- Outcome of `open(path, mode)`. -/
inductive OpenResult where
  | ok
  | fileNotFound
  | permissionDenied
  | otherFailure
deriving DecidableEq

/-- Outcome of a filesystem operation in `check_permissions` (the `open` in
`"w"` mode, or `os.remove`). -/
inductive FsOutcome where
  | ok
  | permissionDenied
  | otherFailure
deriving DecidableEq

/-- A directory modelled as an association list of (filename, content). -/
abbrev Dir := List (String × String)

/-- Content of `name` in the directory, if present (first entry wins). -/
def lookupFile : Dir → String → Option String
  | [], _ => none
  | (k, v) :: t, n => if n = k then some v else lookupFile t n

/-- `open(name, "w")`: create `name` with the given content, truncating any
existing file of that name. -/
def setFile : Dir → String → String → Dir
  | [], m, c => [(m, c)]
  | (k, v) :: t, m, c => if k = m then (m, c) :: t else (k, v) :: setFile t m c

/-- `os.remove(name)`. -/
def removeFile : Dir → String → Dir
  | [], _ => []
  | (k, v) :: t, m => if k = m then removeFile t m else (k, v) :: removeFile t m

/-- First entry wins, as in `lookupFile`; an absent name is appended. -/
lemma lookupFile_setFile (d : Dir) (m c n : String) :
    lookupFile (setFile d m c) n = if n = m then some c else lookupFile d n := by
  induction d with
  | nil => simp [setFile, lookupFile]
  | cons p t ih =>
    obtain ⟨k, v⟩ := p
    by_cases hk : k = m
    · subst hk
      by_cases hn : n = k <;> simp [setFile, lookupFile, hn]
    · by_cases hn : n = k <;> simp [setFile, lookupFile, hk, hn, ih]

/-- `removeFile` removes every entry of the given name. -/
lemma lookupFile_removeFile (d : Dir) (m n : String) :
    lookupFile (removeFile d m) n = if n = m then none else lookupFile d n := by
  induction d with
  | nil => simp [removeFile, lookupFile]
  | cons p t ih =>
    obtain ⟨k, v⟩ := p
    by_cases hk : k = m
    · subst hk
      by_cases hn : n = k
      · subst hn; simp [removeFile, lookupFile, ih]
      · simp [removeFile, lookupFile, hn, ih]
    · by_cases hn : n = k <;> simp [removeFile, lookupFile, hk, hn, ih]

/-- The probed directory together with the oracle outcomes of the two
filesystem operations `check_permissions` performs in it. -/
structure FS where
  dir : Dir
  writeOutcome : FsOutcome
  removeOutcome : FsOutcome

/-- The fixed marker filename used by `check_permissions`
(`test_file = os.path.join(directory, "test_permissions.txt")`). -/
def testFileName : String := "test_permissions.txt"

/-- `check_permissions(directory)`: create and immediately delete the marker
file.  `PermissionError` from either operation is caught and yields `False`;
any other exception propagates.  Returns the flag together with the directory
contents after the probe. -/
def check_permissions (fs : FS) : Except PyError (Bool × Dir) :=
  match fs.writeOutcome with
  | .permissionDenied => .ok (false, fs.dir)
  | .otherFailure => .error .otherError
  | .ok =>
    let d1 := setFile fs.dir testFileName ""
    match fs.removeOutcome with
    | .permissionDenied => .ok (false, d1)
    | .otherFailure => .error .otherError
    | .ok => .ok (true, removeFile d1 testFileName)

/-- Oracle for every external effect of one run. -/
structure Env where
  /-- result of invoking a command; `none` means the executable is missing
  (`FileNotFoundError`). -/
  runCmd : List String → Option CmdResult
  /-- outcome of the n-th `open(log_file, "a")` attempt of the run. -/
  openAppend : Nat → OpenResult
  /-- outcome of `main`'s initial `open(log_file, "w")`. -/
  openLogW : OpenResult
  /-- whether `shutil.which("poetry")` finds the executable. -/
  poetryOnPath : Bool
  /-- the project folder as seen by `check_permissions`. -/
  fs : FS

/-- Observable state threaded through the run. -/
structure St where
  /-- text appended to the log file so far. -/
  log : String
  /-- text printed to the console so far. -/
  console : String
  /-- external commands invoked so far, in order. -/
  invoked : List (List String)
  /-- number of `open(log_file, "a")` attempts so far. -/
  opens : Nat
  /-- process working directory, once `os.chdir` has run. -/
  cwd : Option String
deriving DecidableEq

/-- The state at interpreter start. -/
def st0 : St := { log := "", console := "", invoked := [], opens := 0, cwd := none }

/-- One `try: with open(log_file, "a") ... except FileNotFoundError: print(...)`
block.  Only `FileNotFoundError` is caught (falling back to `fallback` on the
console); any other open failure propagates. -/
def tryAppendLog (env : Env) (st : St) (content fallback : String) :
    Except (PyError × St) St :=
  match env.openAppend st.opens with
  | .ok => .ok { st with log := st.log ++ content, opens := st.opens + 1 }
  | .fileNotFound =>
      .ok { st with console := st.console ++ fallback, opens := st.opens + 1 }
  | .permissionDenied => .error (.permissionError, { st with opens := st.opens + 1 })
  | .otherFailure => .error (.otherError, { st with opens := st.opens + 1 })

/-- The fixed, ordered list of the five checks of `run_checks`. -/
def checks : List (String × List String) :=
  [("Lint Checking", ["ruff", "check", "."]),
   ("Type Checking", ["mypy", "."]),
   ("Formatting with Black", ["black", "."]),
   ("Security Check with Bandit", ["bandit", "-r", "."]),
   ("Docstring Check with Pydocstyle", ["pydocstyle", "."])]

/-- The `print(f"--- {description} ---")` banner line. -/
def checkBanner (description : String) : String :=
  "------------------------------- " ++ description ++
    " -------------------------------\n"

/-- The body of `run_checks`' loop for one `(description, command)` pair:
run the command with `check=True` capturing output; on exit 0 append
`"<description> succeeded.\n" + stdout` to the log, on `CalledProcessError`
append `"<description> failed with error:\n" + stderr + "\n"`; in either
branch a missing log file diverts the same output to the console.  A missing
executable (`FileNotFoundError` from `subprocess.run`) propagates. -/
def runOneCheck (env : Env) (st : St) (description : String)
    (command : List String) : Except (PyError × St) St :=
  let st := { st with console := st.console ++ checkBanner description }
  let st := { st with invoked := st.invoked ++ [command] }
  match env.runCmd command with
  | none => .error (.fileNotFoundError, st)
  | some r =>
    if r.returncode = 0 then
      tryAppendLog env st (description ++ " succeeded.\n" ++ r.stdout)
        ("Log file not found. Output for " ++ description ++ ":\n" ++
          r.stdout ++ "\n")
    else
      tryAppendLog env st (description ++ " failed with error:\n" ++ r.stderr ++ "\n")
        ("Log file not found. Error for " ++ description ++ ":\n" ++
          r.stderr ++ "\n")

/-- The `for description, command in checks:` loop of `run_checks`: run the
iterations in order, stopping only when one raises. -/
def runChecksList (env : Env) : List (String × List String) → St →
    Except (PyError × St) St
  | [], st => .ok st
  | c :: t, st =>
    match runOneCheck env st c.1 c.2 with
    | .error e => .error e
    | .ok st1 => runChecksList env t st1

/-- `run_checks(project_folder, log_file)`: `os.chdir(project_folder)`, then
run the five checks strictly in order. -/
def run_checks (env : Env) (project_folder log_file : String) (st : St) :
    Except (PyError × St) St :=
  let _ := log_file
  let st := { st with cwd := some project_folder }
  runChecksList env checks st

/-- `subprocess.run(command, check=True)`: record the invocation; a missing
executable raises `FileNotFoundError`, a non-zero exit raises
`CalledProcessError`. -/
def subprocRunCheck (env : Env) (st : St) (command : List String) :
    Except (PyError × St) (CmdResult × St) :=
  let st := { st with invoked := st.invoked ++ [command] }
  match env.runCmd command with
  | none => .error (.fileNotFoundError, st)
  | some r => if r.returncode = 0 then .ok (r, st) else .error (.calledProcessError r, st)

/-- The command `install_poetry` runs (note the shell pipe passed as literal
arguments, exactly as in the source). -/
def poetryInstallCmd : List String :=
  ["curl", "-sSL", "https://install.python-poetry.org", "|", "python3"]

/-- `install_poetry()`. -/
def install_poetry (env : Env) (st : St) : Except (PyError × St) St :=
  let st := { st with console := st.console ++ "Poetry is not installed. Installing Poetry...\n" }
  match subprocRunCheck env st poetryInstallCmd with
  | .error e => .error e
  | .ok (_, st) => .ok st

/-- `create_virtualenv()`: `poetry env use python`, `check=True`. -/
def create_virtualenv (env : Env) (st : St) : Except (PyError × St) St :=
  let st := { st with console := st.console ++ "Creating virtual environment with Poetry...\n" }
  match subprocRunCheck env st ["poetry", "env", "use", "python"] with
  | .error e => .error e
  | .ok (_, st) => .ok st

/-- The fixed tool list of `install_tools`. -/
def tools : List String := ["black", "mypy", "ruff", "bandit", "pydocstyle"]

/-- One iteration of `install_tools`' loop: `subprocess.call(["poetry", "show",
tool])`; a non-zero exit triggers `poetry add --group dev <tool>` with
`check=True`, a zero exit installs nothing. -/
def installOneTool (env : Env) (st : St) (tool : String) : Except (PyError × St) St :=
  let st := { st with console := st.console ++ "Checking if " ++ tool ++ " is installed...\n" }
  let st := { st with invoked := st.invoked ++ [["poetry", "show", tool]] }
  match env.runCmd ["poetry", "show", tool] with
  | none => .error (.fileNotFoundError, st)
  | some r =>
    if r.returncode ≠ 0 then
      let st := { st with console := st.console ++ tool ++ " is not installed. Installing " ++ tool ++ "...\n" }
      match subprocRunCheck env st ["poetry", "add", "--group", "dev", tool] with
      | .error e => .error e
      | .ok (_, st) => .ok st
    else
      .ok { st with console := st.console ++ tool ++ " is already installed.\n" }

/-- The `for tool in tools:` loop of `install_tools`. -/
def installToolsList (env : Env) : List String → St → Except (PyError × St) St
  | [], st => .ok st
  | t :: ts, st =>
    match installOneTool env st t with
    | .error e => .error e
    | .ok st1 => installToolsList env ts st1

/-- `install_tools()`. -/
def install_tools (env : Env) (st : St) : Except (PyError × St) St :=
  installToolsList env tools st

/-- `install_dependencies()`: `poetry install`, `check=True`. -/
def install_dependencies (env : Env) (st : St) : Except (PyError × St) St :=
  let st := { st with console := st.console ++ "Installing project dependencies using Poetry...\n" }
  match subprocRunCheck env st ["poetry", "install"] with
  | .error e => .error e
  | .ok (_, st) => .ok st

/-- The parsed CLI arguments (all three are required). -/
structure Args where
  env_dir : String
  log_folder : String
  project_folder : String
deriving DecidableEq

/-- The log file path `<log-folder>/log_<timestamp>.txt` built by `main`. -/
def logFilePath (log_folder timestamp : String) : String :=
  log_folder ++ "/log_" ++ timestamp ++ ".txt"

/-- The final banner `main` prints. -/
def completionBanner : String :=
  "All checks (linting, type checking, formatting, security, and docstring validation) have been completed!\n"

/-- `main()` after argument parsing: create the log file with its initial
line (a missing file falls back to the console, other open failures
propagate); probe permissions on the project folder and return early on
denial; otherwise install Poetry when it is not on the path, assign the
unused `venv_dir`, create the virtual environment, install tools, install
dependencies, run the checks, and print the completion banner.
(`os.makedirs` on the log folder is a side effect with no observable in this
model and is not represented.) -/
def main (env : Env) (args : Args) (timestamp : String) : Except (PyError × St) St :=
  let log_file := logFilePath args.log_folder timestamp
  let step0 : Except (PyError × St) St :=
    match env.openLogW with
    | .ok => .ok { st0 with log := "Log file created: " ++ log_file ++ "\n" }
    | .fileNotFound =>
        .ok { st0 with console := "Log file " ++ log_file ++ " not found, output will be shown on stdout.\n" }
    | .permissionDenied => .error (.permissionError, st0)
    | .otherFailure => .error (.otherError, st0)
  match step0 with
  | .error e => .error e
  | .ok st =>
    match check_permissions env.fs with
    | .error e => .error (e, st)
    | .ok (perm, _) =>
      if perm = false then
        let st := { st with console := st.console ++ "Access to '" ++ args.project_folder ++ "' is denied.\n" }
        tryAppendLog env st ("Access to '" ++ args.project_folder ++ "' is denied.\n")
          ("Log file " ++ log_file ++ " not found, logging to stdout.\n")
      else
        let step1 : Except (PyError × St) St :=
          if env.poetryOnPath then .ok st else install_poetry env st
        match step1 with
        | .error e => .error e
        | .ok st =>
          let venv_dir := args.env_dir
          let _ := venv_dir
          match create_virtualenv env st with
          | .error e => .error e
          | .ok st =>
            match install_tools env st with
            | .error e => .error e
            | .ok st =>
              match install_dependencies env st with
              | .error e => .error e
              | .ok st =>
                match run_checks env args.project_folder log_file st with
                | .error e => .error e
                | .ok st => .ok { st with console := st.console ++ completionBanner }

/-! ### Observation helpers -/

/-- The exception a computation raised, if it raised one. -/
def raised (x : Except (PyError × St) St) : Option PyError :=
  match x with
  | .error (e, _) => some e
  | .ok _ => none

/-- Whether the computation terminated normally. -/
def isOk (x : Except (PyError × St) St) : Bool :=
  match x with
  | .ok _ => true
  | .error _ => false

/-- The observable state at the end of the computation, on either path. -/
def finalSt (x : Except (PyError × St) St) : St :=
  match x with
  | .error (_, s) => s
  | .ok s => s

/-! ### Concrete environments used to witness the theorems -/

/-- Mixed run: `mypy` and `bandit` exit 1, every other command exits 0, the
log file is always available, Poetry is on the path, and the project folder
grants the permission probe. -/
def envMixed : Env :=
  { runCmd := fun c =>
      if c = ["mypy", "."] then some ⟨1, "", "mypy: type errors\n"⟩
      else if c = ["bandit", "-r", "."] then some ⟨1, "", "bandit: issues\n"⟩
      else some ⟨0, "ok\n", ""⟩
    openAppend := fun _ => .ok
    openLogW := .ok
    poetryOnPath := true
    fs := ⟨[], .ok, .ok⟩ }

/-- Every command exits 1 with `boom` on stderr. -/
def envAllFail : Env :=
  { runCmd := fun _ => some ⟨1, "", "boom\n"⟩
    openAppend := fun _ => .ok
    openLogW := .ok
    poetryOnPath := true
    fs := ⟨[], .ok, .ok⟩ }

/-- The project folder denies the permission probe; everything else is benign. -/
def envDenied : Env :=
  { runCmd := fun _ => some ⟨0, "", ""⟩
    openAppend := fun _ => .ok
    openLogW := .ok
    poetryOnPath := true
    fs := ⟨[], .permissionDenied, .ok⟩ }

/-- Every command succeeds but every `open(log_file, "a")` raises
`PermissionError` (e.g. the log file exists but became unwritable). -/
def envLogDenied : Env :=
  { runCmd := fun _ => some ⟨0, "all good\n", ""⟩
    openAppend := fun _ => .permissionDenied
    openLogW := .ok
    poetryOnPath := true
    fs := ⟨[], .ok, .ok⟩ }

/-- Every command succeeds but every `open(log_file, "a")` raises
`FileNotFoundError` (the log file's directory vanished). -/
def envLogMissing : Env :=
  { runCmd := fun _ => some ⟨0, "all good\n", ""⟩
    openAppend := fun _ => .fileNotFound
    openLogW := .ok
    poetryOnPath := true
    fs := ⟨[], .ok, .ok⟩ }

/-- The project folder denies the permission probe and every
`open(log_file, "a")` raises `PermissionError`. -/
def envDeniedLogDenied : Env :=
  { runCmd := fun _ => some ⟨0, "", ""⟩
    openAppend := fun _ => .permissionDenied
    openLogW := .ok
    poetryOnPath := true
    fs := ⟨[], .permissionDenied, .ok⟩ }

/-- The project folder denies the permission probe and every
`open(log_file, "a")` raises `FileNotFoundError`. -/
def envDeniedLogMissing : Env :=
  { runCmd := fun _ => some ⟨0, "", ""⟩
    openAppend := fun _ => .fileNotFound
    openLogW := .ok
    poetryOnPath := true
    fs := ⟨[], .permissionDenied, .ok⟩ }

/-- Arguments used by the witnesses. -/
def argsA : Args := ⟨"envdir", "logs", "proj"⟩

/-! ### C7 -/

/-- C7: `check_permissions` returns `true` when creating and then deleting
the marker file succeeds, returns `false` when a `PermissionError` occurs
during either operation of that attempt, and lets any other error type
propagate uncaught. -/
theorem check_permissions_outcomes (fs : FS) :
    (fs.writeOutcome = .ok → fs.removeOutcome = .ok →
      check_permissions fs =
        .ok (true, removeFile (setFile fs.dir testFileName "") testFileName))
    ∧ (fs.writeOutcome = .permissionDenied →
      check_permissions fs = .ok (false, fs.dir))
    ∧ (fs.writeOutcome = .ok → fs.removeOutcome = .permissionDenied →
      check_permissions fs = .ok (false, setFile fs.dir testFileName ""))
    ∧ (fs.writeOutcome = .otherFailure →
      check_permissions fs = .error .otherError)
    ∧ (fs.writeOutcome = .ok → fs.removeOutcome = .otherFailure →
      check_permissions fs = .error .otherError) := by
  refine ⟨fun h1 h2 => ?_, fun h1 => ?_, fun h1 h2 => ?_, fun h1 => ?_,
    fun h1 h2 => ?_⟩ <;> simp [check_permissions, h1, *]

/-- Witness for C7: on a directory holding one file, with both operations
succeeding, the probe returns `true`; with a denied write it returns `false`;
with another write failure it raises. -/
theorem check_permissions_outcomes_witness :
    check_permissions ⟨[("a.py", "x")], .ok, .ok⟩ = .ok (true, [("a.py", "x")])
    ∧ check_permissions ⟨[("a.py", "x")], .permissionDenied, .ok⟩ =
        .ok (false, [("a.py", "x")])
    ∧ check_permissions ⟨[("a.py", "x")], .otherFailure, .ok⟩ =
        .error .otherError := by
  refine ⟨?_, ?_, ?_⟩
  · rw [(check_permissions_outcomes ⟨[("a.py", "x")], .ok, .ok⟩).1 rfl rfl]
    rfl
  · exact (check_permissions_outcomes ⟨[("a.py", "x")], .permissionDenied, .ok⟩).2.1 rfl
  · exact (check_permissions_outcomes ⟨[("a.py", "x")], .otherFailure, .ok⟩).2.2.2.1 rfl

/-! ### C10 -/

/-- C10: the probe always uses the fixed marker name `test_permissions.txt`
inside the probed directory; on a successful probe the marker file is first
truncated to empty content (overwriting any existing file of that name) and
then deleted, and every other name's content is left unchanged. -/
theorem check_permissions_frame (fs : FS)
    (h1 : fs.writeOutcome = .ok) (h2 : fs.removeOutcome = .ok) :
    check_permissions fs =
      .ok (true, removeFile (setFile fs.dir testFileName "") testFileName)
    ∧ lookupFile (setFile fs.dir testFileName "") testFileName = some ""
    ∧ lookupFile (removeFile (setFile fs.dir testFileName "") testFileName)
        testFileName = none
    ∧ ∀ n, n ≠ testFileName →
        lookupFile (removeFile (setFile fs.dir testFileName "") testFileName) n =
          lookupFile fs.dir n := by
  refine ⟨(check_permissions_outcomes fs).1 h1 h2, ?_, ?_, fun n hn => ?_⟩
  · simp [lookupFile_setFile]
  · simp [lookupFile_removeFile]
  · simp [lookupFile_removeFile, lookupFile_setFile, hn]

/-- Witness for C10: probing a directory that already holds the marker file
(with stale content) and another file deletes the marker and keeps the other
file intact. -/
theorem check_permissions_frame_witness :
    check_permissions ⟨[(testFileName, "stale"), ("a.py", "x")], .ok, .ok⟩ =
      .ok (true, removeFile (setFile [(testFileName, "stale"), ("a.py", "x")]
        testFileName "") testFileName)
    ∧ lookupFile (removeFile (setFile [(testFileName, "stale"), ("a.py", "x")]
        testFileName "") testFileName) testFileName = none
    ∧ lookupFile (removeFile (setFile [(testFileName, "stale"), ("a.py", "x")]
        testFileName "") testFileName) "a.py" = some "x" := by
  obtain ⟨h1, h2, h3, h4⟩ :=
    check_permissions_frame ⟨[(testFileName, "stale"), ("a.py", "x")], .ok, .ok⟩ rfl rfl
  exact ⟨h1, h3, by rw [h4 "a.py" (by decide)]; decide⟩

/-! ### Lemmas about one loop iteration of `run_checks` -/

/-- If the executable exists and the log opens either succeed or merely miss
the file, one check iteration terminates normally, records exactly its one
command, and uses exactly one log-open attempt — whatever the exit code. -/
lemma runOneCheck_ok (env : Env) (st : St) (d : String) (c : List String)
    (hc : (env.runCmd c).isSome)
    (ho : ∀ n, env.openAppend n = .ok ∨ env.openAppend n = .fileNotFound) :
    ∃ st', runOneCheck env st d c = .ok st'
      ∧ st'.invoked = st.invoked ++ [c] ∧ st'.opens = st.opens + 1 := by
  obtain ⟨r, hr⟩ := Option.isSome_iff_exists.mp hc
  rcases ho st.opens with h | h <;> by_cases hz : r.returncode = 0 <;>
    simp [runOneCheck, tryAppendLog, hr, hz, h]

/-- The log block one check contributes when the log is available under
environment `env`: the success line plus stdout on exit 0, the failure line
plus stderr plus a newline otherwise. -/
def checkBlock (env : Env) (c : String × List String) : String :=
  match env.runCmd c.2 with
  | none => ""
  | some r =>
    if r.returncode = 0 then c.1 ++ " succeeded.\n" ++ r.stdout
    else c.1 ++ " failed with error:\n" ++ r.stderr ++ "\n"

/-- The concatenation of the log blocks of a list of checks. -/
def logBlocks (env : Env) : List (String × List String) → String
  | [] => ""
  | c :: t => checkBlock env c ++ logBlocks env t

/-- When the log is available, one check iteration appends exactly its block
to the log. -/
lemma runOneCheck_ok_log (env : Env) (st : St) (d : String) (c : List String)
    (hc : (env.runCmd c).isSome) (ho : ∀ n, env.openAppend n = .ok) :
    ∃ st', runOneCheck env st d c = .ok st'
      ∧ st'.invoked = st.invoked ++ [c]
      ∧ st'.log = st.log ++ checkBlock env (d, c) := by
  obtain ⟨r, hr⟩ := Option.isSome_iff_exists.mp hc
  by_cases hz : r.returncode = 0 <;>
    simp [runOneCheck, tryAppendLog, checkBlock, hr, hz, ho st.opens]

/-- Folding a list of checks with executables present and benign log opens
terminates normally and records the commands in order. -/
lemma foldChecks_ok (env : Env) (cs : List (String × List String)) (st : St)
    (hc : ∀ c ∈ cs, (env.runCmd c.2).isSome)
    (ho : ∀ n, env.openAppend n = .ok ∨ env.openAppend n = .fileNotFound) :
    ∃ st', runChecksList env cs st = .ok st'
      ∧ st'.invoked = st.invoked ++ cs.map Prod.snd := by
  induction cs generalizing st with
  | nil => exact ⟨st, rfl, by simp [runChecksList]⟩
  | cons c t ih =>
    obtain ⟨st1, h1, hinv, _⟩ := runOneCheck_ok env st c.1 c.2 (hc c (by simp)) ho
    obtain ⟨st', h2, hinv2⟩ := ih st1 (fun x hx => hc x (by simp [hx]))
    exact ⟨st', by simp [runChecksList, h1, h2], by simp [hinv2, hinv]⟩

/-- Folding a list of checks with executables present and the log always
available additionally appends exactly the blocks, in order. -/
lemma foldChecks_ok_log (env : Env) (cs : List (String × List String)) (st : St)
    (hc : ∀ c ∈ cs, (env.runCmd c.2).isSome)
    (ho : ∀ n, env.openAppend n = .ok) :
    ∃ st', runChecksList env cs st = .ok st'
      ∧ st'.invoked = st.invoked ++ cs.map Prod.snd
      ∧ st'.log = st.log ++ logBlocks env cs := by
  induction cs generalizing st with
  | nil => exact ⟨st, rfl, by simp [runChecksList], by simp [logBlocks]⟩
  | cons c t ih =>
    obtain ⟨st1, h1, hinv, hlog⟩ := runOneCheck_ok_log env st c.1 c.2 (hc c (by simp)) ho
    obtain ⟨st', h2, hinv2, hlog2⟩ := ih st1 (fun x hx => hc x (by simp [hx]))
    refine ⟨st', by simp [runChecksList, h1, h2], by simp [hinv2, hinv], ?_⟩
    rw [hlog2, hlog]
    simp [logBlocks, String.append_assoc]

/-! ### C1 -/

/-- C1: when every check's executable exists and the log opens at worst miss
the file, `run_checks` attempts all 5 checks — recording their commands in
order — and terminates normally, regardless of the exit codes of the
individual checks; and when an executable is missing (here the first one),
the `FileNotFoundError` propagates out of `run_checks`. -/
theorem run_checks_attempts_all (env : Env) (pf lf : String) (st : St) :
    ((∀ c ∈ checks, (env.runCmd c.2).isSome) →
      (∀ n, env.openAppend n = .ok ∨ env.openAppend n = .fileNotFound) →
      ∃ st', run_checks env pf lf st = .ok st'
        ∧ st'.invoked = st.invoked ++ checks.map Prod.snd)
    ∧ (env.runCmd ["ruff", "check", "."] = none →
      raised (run_checks env pf lf st) = some PyError.fileNotFoundError) := by
  constructor
  · intro hc ho
    obtain ⟨st', h, hinv⟩ :=
      foldChecks_ok env checks { st with cwd := some pf } hc ho
    exact ⟨st', h, by simpa using hinv⟩
  · intro hmiss
    simp [run_checks, checks, runChecksList, runOneCheck, hmiss, raised]

/-- Witness for C1: in the mixed environment (`mypy` and `bandit` fail, the
rest succeed) all five commands are attempted in order and `run_checks`
terminates normally; with no executables at all it raises
`FileNotFoundError`. -/
theorem run_checks_attempts_all_witness :
    (isOk (run_checks envMixed "proj" "log.txt" st0) = true
      ∧ (finalSt (run_checks envMixed "proj" "log.txt" st0)).invoked =
          [["ruff", "check", "."], ["mypy", "."], ["black", "."],
           ["bandit", "-r", "."], ["pydocstyle", "."]])
    ∧ raised (run_checks { envMixed with runCmd := fun _ => none }
        "proj" "log.txt" st0) = some PyError.fileNotFoundError := by
  constructor
  · obtain ⟨st', h, hinv⟩ :=
      (run_checks_attempts_all envMixed "proj" "log.txt" st0).1
        (by decide) (fun n => Or.inl rfl)
    rw [h]
    exact ⟨rfl, by simpa [finalSt, st0, checks] using hinv⟩
  · exact (run_checks_attempts_all { envMixed with runCmd := fun _ => none }
      "proj" "log.txt" st0).2 rfl

/-! ### C2 -/

/-- C2: the block a check appends to the log is exactly
`"<description> succeeded.\n"` followed by the captured stdout verbatim when
the command exits zero, and exactly `"<description> failed with error:\n"`
followed by the captured stderr verbatim plus one trailing newline when it
exits non-zero. -/
theorem runOneCheck_log_block (env : Env) (st : St) (d : String)
    (c : List String) (r : CmdResult)
    (hr : env.runCmd c = some r) (ho : env.openAppend st.opens = .ok) :
    ∃ st', runOneCheck env st d c = .ok st'
      ∧ st'.log = st.log ++
          (if r.returncode = 0 then d ++ " succeeded.\n" ++ r.stdout
           else d ++ " failed with error:\n" ++ r.stderr ++ "\n") := by
  by_cases hz : r.returncode = 0 <;>
    simp [runOneCheck, tryAppendLog, hr, ho, hz]

/-- Witness for C2: in the mixed environment the `ruff` check (exit 0)
appends its success block and the `mypy` check (exit 1) appends its failure
block. -/
theorem runOneCheck_log_block_witness :
    (finalSt (runOneCheck envMixed st0 "Lint Checking" ["ruff", "check", "."])).log =
      "Lint Checking succeeded.\nok\n"
    ∧ (finalSt (runOneCheck envMixed st0 "Type Checking" ["mypy", "."])).log =
      "Type Checking failed with error:\nmypy: type errors\n\n" := by
  constructor
  · obtain ⟨st', h, hlog⟩ := runOneCheck_log_block envMixed st0 "Lint Checking"
      ["ruff", "check", "."] ⟨0, "ok\n", ""⟩ rfl rfl
    rw [h]
    show st'.log = _
    rw [hlog]
    rfl
  · obtain ⟨st', h, hlog⟩ := runOneCheck_log_block envMixed st0 "Type Checking"
      ["mypy", "."] ⟨1, "", "mypy: type errors\n"⟩ rfl rfl
    rw [h]
    show st'.log = _
    rw [hlog]
    rfl

/-! ### C5 -/

/-- C5: `run_checks` executes exactly the fixed list of five checks strictly
in the order lint, type-check, format-check, security-scan,
docstring-style-check; when every executable exists and the log stays
available, the final log is the initial log followed by exactly one block
per check in invocation order, each tagged succeeded or failed according to
that check's exit code (the content of `checkBlock`). -/
theorem run_checks_ordered_blocks (env : Env) (pf lf : String) (st : St)
    (hc : ∀ c ∈ checks, (env.runCmd c.2).isSome)
    (ho : ∀ n, env.openAppend n = .ok) :
    checks.map Prod.fst =
      ["Lint Checking", "Type Checking", "Formatting with Black",
       "Security Check with Bandit", "Docstring Check with Pydocstyle"]
    ∧ ∃ st', run_checks env pf lf st = .ok st'
        ∧ st'.invoked = st.invoked ++ checks.map Prod.snd
        ∧ st'.log = st.log ++ logBlocks env checks := by
  refine ⟨rfl, ?_⟩
  obtain ⟨st', h, hinv, hlog⟩ :=
    foldChecks_ok_log env checks { st with cwd := some pf } hc ho
  exact ⟨st', h, by simpa using hinv, by simpa using hlog⟩

/-- Witness for C5: a {pass, fail, pass, fail, pass} run produces exactly
the five correctly tagged blocks in invocation order. -/
theorem run_checks_ordered_blocks_witness :
    (finalSt (run_checks envMixed "proj" "log.txt" st0)).log =
      "Lint Checking succeeded.\nok\nType Checking failed with error:\nmypy: type errors\n\nFormatting with Black succeeded.\nok\nSecurity Check with Bandit failed with error:\nbandit: issues\n\nDocstring Check with Pydocstyle succeeded.\nok\n" := by
  obtain ⟨-, st', h, hinv, hlog⟩ :=
    run_checks_ordered_blocks envMixed "proj" "log.txt" st0 (by decide) (fun n => rfl)
  rw [h]
  show st'.log = _
  rw [hlog]
  rfl

/-! ### C3 (corrected) -/

/-- C3 counterexample: in `envLogDenied` every external command succeeds, yet
opening the log file for append raises `PermissionError` in the first check
and that log-write failure propagates out of `run_checks` — refuting the
claim that a failure of any kind to open the log for writing is caught. -/
theorem run_checks_log_denied_raises :
    raised (run_checks envLogDenied "proj" "log.txt" st0) =
      some PyError.permissionError := rfl

/-- C3 amended: at the log-append call sites only a missing log file
(`FileNotFoundError`) is caught, with the captured output printed to the
console behind a `Log file not found` notice; any other failure to open the
log file — such as a `PermissionError` — propagates out. -/
theorem runOneCheck_log_fallback (env : Env) (st : St) (d : String)
    (c : List String) (r : CmdResult) (hr : env.runCmd c = some r) :
    (env.openAppend st.opens = .fileNotFound →
      ∃ st', runOneCheck env st d c = .ok st'
        ∧ st'.log = st.log
        ∧ st'.console = st.console ++ checkBanner d ++
            (if r.returncode = 0 then
              "Log file not found. Output for " ++ d ++ ":\n" ++ r.stdout ++ "\n"
             else
              "Log file not found. Error for " ++ d ++ ":\n" ++ r.stderr ++ "\n"))
    ∧ (env.openAppend st.opens = .permissionDenied →
      raised (runOneCheck env st d c) = some PyError.permissionError) := by
  constructor
  · intro h
    by_cases hz : r.returncode = 0 <;>
      simp [runOneCheck, tryAppendLog, hr, h, hz]
  · intro h
    by_cases hz : r.returncode = 0 <;>
      simp [runOneCheck, tryAppendLog, raised, hr, h, hz]

/-- Witness for C3's amended claim: a vanished log file diverts the check's
output to the console without raising, while a permission-denied log file
makes the same call site raise. -/
theorem runOneCheck_log_fallback_witness :
    (isOk (runOneCheck envLogMissing st0 "Lint Checking" ["ruff", "check", "."]) = true
      ∧ (finalSt (runOneCheck envLogMissing st0 "Lint Checking"
          ["ruff", "check", "."])).console =
          checkBanner "Lint Checking" ++
            "Log file not found. Output for Lint Checking:\nall good\n\n")
    ∧ raised (runOneCheck envLogDenied st0 "Lint Checking" ["ruff", "check", "."]) =
        some PyError.permissionError := by
  constructor
  · obtain ⟨st', h, -, hcon⟩ :=
      (runOneCheck_log_fallback envLogMissing st0 "Lint Checking"
        ["ruff", "check", "."] ⟨0, "all good\n", ""⟩ rfl).1 rfl
    rw [h]
    refine ⟨rfl, ?_⟩
    show st'.console = _
    rw [hcon]
    rfl
  · exact (runOneCheck_log_fallback envLogDenied st0 "Lint Checking"
      ["ruff", "check", "."] ⟨0, "all good\n", ""⟩ rfl).2 rfl

/-! ### C8 -/

/-- A tool whose `poetry show` query exits zero triggers no `poetry add`:
the iteration records only the query. -/
lemma installOneTool_already (env : Env) (st : St) (t : String)
    (h : ∃ r, env.runCmd ["poetry", "show", t] = some r ∧ r.returncode = 0) :
    ∃ st', installOneTool env st t = .ok st'
      ∧ st'.invoked = st.invoked ++ [["poetry", "show", t]] := by
  obtain ⟨r, hr, hz⟩ := h
  simp [installOneTool, hr, hz]

/-- Over a list of tools that are all registered, the loop issues exactly
the `show` queries, in order. -/
lemma installToolsList_all_present (env : Env) (ts : List String) (st : St)
    (h : ∀ t ∈ ts, ∃ r, env.runCmd ["poetry", "show", t] = some r ∧ r.returncode = 0) :
    ∃ st', installToolsList env ts st = .ok st'
      ∧ st'.invoked = st.invoked ++ ts.map (fun t => ["poetry", "show", t]) := by
  induction ts generalizing st with
  | nil => exact ⟨st, rfl, by simp [installToolsList]⟩
  | cons a ts ih =>
    obtain ⟨st1, h1, hinv⟩ := installOneTool_already env st a (h a (by simp))
    obtain ⟨st', h2, hinv2⟩ := ih st1 (fun x hx => h x (by simp [hx]))
    exact ⟨st', by simp [installToolsList, h1, h2], by simp [hinv2, hinv]⟩

/-- C8: when every tool of the fixed list is already registered (the `poetry
show` query exits zero for each), `install_tools` terminates normally after
issuing exactly the five `show` queries and zero `poetry add` install calls;
in particular a second run after a successful first run installs nothing. -/
theorem install_tools_idempotent (env : Env) (st : St)
    (h : ∀ t ∈ tools, ∃ r, env.runCmd ["poetry", "show", t] = some r ∧ r.returncode = 0) :
    ∃ st', install_tools env st = .ok st'
      ∧ st'.invoked = st.invoked ++ tools.map (fun t => ["poetry", "show", t]) := by
  simpa [install_tools] using installToolsList_all_present env tools st h

/-- Witness for C8: with every `poetry show` exiting zero, the five queries
are the only commands issued. -/
theorem install_tools_idempotent_witness :
    isOk (install_tools envMixed st0) = true
    ∧ (finalSt (install_tools envMixed st0)).invoked =
        [["poetry", "show", "black"], ["poetry", "show", "mypy"],
         ["poetry", "show", "ruff"], ["poetry", "show", "bandit"],
         ["poetry", "show", "pydocstyle"]] := by
  obtain ⟨st', h, hinv⟩ := install_tools_idempotent envMixed st0
    (by intro t ht; fin_cases ht <;> exact ⟨⟨0, "ok\n", ""⟩, rfl, rfl⟩)
  rw [h]
  refine ⟨rfl, ?_⟩
  show st'.invoked = _
  rw [hinv]
  rfl

/-! ### C6 -/

/-- C6: in the environment-setup steps (Poetry installation,
virtual-environment creation, tool installation, dependency installation),
any non-zero exit of an invoked command raises `CalledProcessError`
immediately, with no retry and no further command issued by that step; and
in `main` such a failure halts the entire run: after a failing
`poetry env use python`, no tool query, no dependency installation and no
check is ever invoked. -/
theorem setup_nonzero_fatal (env : Env) (st : St) (args : Args) (ts : String) :
    (∀ r, env.runCmd poetryInstallCmd = some r → r.returncode ≠ 0 →
      ∃ st', install_poetry env st = .error (.calledProcessError r, st')
        ∧ st'.invoked = st.invoked ++ [poetryInstallCmd])
    ∧ (∀ r, env.runCmd ["poetry", "env", "use", "python"] = some r →
        r.returncode ≠ 0 →
      ∃ st', create_virtualenv env st = .error (.calledProcessError r, st')
        ∧ st'.invoked = st.invoked ++ [["poetry", "env", "use", "python"]])
    ∧ (∀ r₁ r₂, env.runCmd ["poetry", "show", "black"] = some r₁ →
        r₁.returncode ≠ 0 →
        env.runCmd ["poetry", "add", "--group", "dev", "black"] = some r₂ →
        r₂.returncode ≠ 0 →
      ∃ st', install_tools env st = .error (.calledProcessError r₂, st')
        ∧ st'.invoked = st.invoked ++
            [["poetry", "show", "black"], ["poetry", "add", "--group", "dev", "black"]])
    ∧ (∀ r, env.runCmd ["poetry", "install"] = some r → r.returncode ≠ 0 →
      ∃ st', install_dependencies env st = .error (.calledProcessError r, st')
        ∧ st'.invoked = st.invoked ++ [["poetry", "install"]])
    ∧ (env.openLogW = .ok → env.poetryOnPath = true →
        (∃ d, check_permissions env.fs = .ok (true, d)) →
        ∀ r, env.runCmd ["poetry", "env", "use", "python"] = some r →
          r.returncode ≠ 0 →
      ∃ st', main env args ts = .error (.calledProcessError r, st')
        ∧ st'.invoked = [["poetry", "env", "use", "python"]]) := by
  refine ⟨fun r hr hz => ?_, fun r hr hz => ?_, fun r₁ r₂ hr1 hz1 hr2 hz2 => ?_,
    fun r hr hz => ?_, fun hw hp hperm r hr hz => ?_⟩
  · simp [install_poetry, subprocRunCheck, hr, hz]
  · simp [create_virtualenv, subprocRunCheck, hr, hz]
  · simp [install_tools, installToolsList, tools, installOneTool,
      subprocRunCheck, hr1, hz1, hr2, hz2]
  · simp [install_dependencies, subprocRunCheck, hr, hz]
  · obtain ⟨d, hd⟩ := hperm
    simp [main, hd, hw, hp, create_virtualenv, subprocRunCheck, hr, hz, st0]

/-- Witness for C6: in the all-fail environment each setup step raises on
its first non-zero exit, and `main` halts right after the failing
`poetry env use python` with no later command invoked. -/
theorem setup_nonzero_fatal_witness :
    raised (install_poetry envAllFail st0) =
      some (PyError.calledProcessError ⟨1, "", "boom\n"⟩)
    ∧ raised (create_virtualenv envAllFail st0) =
      some (PyError.calledProcessError ⟨1, "", "boom\n"⟩)
    ∧ (raised (install_tools envAllFail st0) =
        some (PyError.calledProcessError ⟨1, "", "boom\n"⟩)
      ∧ (finalSt (install_tools envAllFail st0)).invoked =
        [["poetry", "show", "black"], ["poetry", "add", "--group", "dev", "black"]])
    ∧ raised (install_dependencies envAllFail st0) =
      some (PyError.calledProcessError ⟨1, "", "boom\n"⟩)
    ∧ (raised (main envAllFail argsA "2026-01-01_00-00-00") =
        some (PyError.calledProcessError ⟨1, "", "boom\n"⟩)
      ∧ (finalSt (main envAllFail argsA "2026-01-01_00-00-00")).invoked =
        [["poetry", "env", "use", "python"]]) := by
  obtain ⟨h1, h2, h3, h4, h5⟩ := setup_nonzero_fatal envAllFail st0 argsA "2026-01-01_00-00-00"
  obtain ⟨s1, e1, -⟩ := h1 ⟨1, "", "boom\n"⟩ rfl (by decide)
  obtain ⟨s2, e2, -⟩ := h2 ⟨1, "", "boom\n"⟩ rfl (by decide)
  obtain ⟨s3, e3, i3⟩ := h3 ⟨1, "", "boom\n"⟩ ⟨1, "", "boom\n"⟩ rfl (by decide) rfl (by decide)
  obtain ⟨s4, e4, -⟩ := h4 ⟨1, "", "boom\n"⟩ rfl (by decide)
  obtain ⟨s5, e5, i5⟩ := h5 rfl rfl ⟨[], rfl⟩ ⟨1, "", "boom\n"⟩ rfl (by decide)
  refine ⟨by rw [e1]; rfl, by rw [e2]; rfl, ⟨by rw [e3]; rfl, ?_⟩,
    by rw [e4]; rfl, ⟨by rw [e5]; rfl, ?_⟩⟩
  · rw [e3]
    show s3.invoked = _
    rw [i3]
    rfl
  · rw [e5]
    show s5.invoked = _
    rw [i5]

/-! ### C4 (corrected) -/

/-- C4 counterexample: a run where the permission probe returns false but
the denial append's `open(log_file, "a")` raises `PermissionError` — only
`FileNotFoundError` is caught at that site, so `main` raises instead of
returning early without raising, refuting the claim as stated. -/
theorem main_denied_append_raises :
    raised (main envDeniedLogDenied argsA "2026-01-01_00-00-00") =
      some PyError.permissionError := rfl

/-- C4 amended: when the permission probe on the project folder returns
false, `main` prints the denial and never invokes any external command — no
Poetry installation, no virtual-environment creation, no tool installation,
no dependency installation, no check; it returns early without raising when
the denial append's log open succeeds (denial appended to the log) or merely
misses the file (`FileNotFoundError` caught, console notice instead), while
any other failure of that log open — such as `PermissionError` — propagates,
still with no command invoked. -/
theorem main_denied_short_circuit (env : Env) (args : Args) (ts : String)
    (hperm : ∃ d, check_permissions env.fs = .ok (false, d))
    (hw : env.openLogW = .ok) :
    (env.openAppend 0 = .ok →
      ∃ st', main env args ts = .ok st'
        ∧ st'.invoked = []
        ∧ st'.console = "Access to '" ++ args.project_folder ++ "' is denied.\n"
        ∧ st'.log = "Log file created: " ++ logFilePath args.log_folder ts ++ "\n" ++
            ("Access to '" ++ args.project_folder ++ "' is denied.\n"))
    ∧ (env.openAppend 0 = .fileNotFound →
      ∃ st', main env args ts = .ok st'
        ∧ st'.invoked = []
        ∧ st'.console = "Access to '" ++ args.project_folder ++ "' is denied.\n" ++
            ("Log file " ++ logFilePath args.log_folder ts ++ " not found, logging to stdout.\n")
        ∧ st'.log = "Log file created: " ++ logFilePath args.log_folder ts ++ "\n")
    ∧ (env.openAppend 0 = .permissionDenied →
      raised (main env args ts) = some PyError.permissionError
        ∧ (finalSt (main env args ts)).invoked = []) := by
  obtain ⟨d, hd⟩ := hperm
  refine ⟨fun ha => ?_, fun ha => ?_, fun ha => ?_⟩ <;>
    simp [main, hd, hw, tryAppendLog, ha, st0, raised, finalSt]

/-- Witness for C4's amended claim: with a permission-denied project folder,
`main` invokes nothing in all three denial-append scenarios — ending
normally with the denial in console and log when the log is appendable,
ending normally with a console notice when the log file is missing, and
raising `PermissionError` when the log open is denied. -/
theorem main_denied_short_circuit_witness :
    (isOk (main envDenied argsA "2026-01-01_00-00-00") = true
      ∧ (finalSt (main envDenied argsA "2026-01-01_00-00-00")).invoked = []
      ∧ (finalSt (main envDenied argsA "2026-01-01_00-00-00")).console =
          "Access to 'proj' is denied.\n"
      ∧ (finalSt (main envDenied argsA "2026-01-01_00-00-00")).log =
          "Log file created: logs/log_2026-01-01_00-00-00.txt\nAccess to 'proj' is denied.\n")
    ∧ (isOk (main envDeniedLogMissing argsA "2026-01-01_00-00-00") = true
      ∧ (finalSt (main envDeniedLogMissing argsA "2026-01-01_00-00-00")).invoked = []
      ∧ (finalSt (main envDeniedLogMissing argsA "2026-01-01_00-00-00")).console =
          "Access to 'proj' is denied.\nLog file logs/log_2026-01-01_00-00-00.txt not found, logging to stdout.\n")
    ∧ (raised (main envDeniedLogDenied argsA "2026-01-01_00-00-00") =
        some PyError.permissionError
      ∧ (finalSt (main envDeniedLogDenied argsA "2026-01-01_00-00-00")).invoked = []) := by
  refine ⟨?_, ?_, ?_⟩
  · obtain ⟨st', h, hinv, hcon, hlog⟩ := (main_denied_short_circuit envDenied argsA
      "2026-01-01_00-00-00" ⟨[], rfl⟩ rfl).1 rfl
    rw [h]
    refine ⟨rfl, hinv, ?_, ?_⟩
    · show st'.console = _
      rw [hcon]
      rfl
    · show st'.log = _
      rw [hlog]
      rfl
  · obtain ⟨st', h, hinv, hcon, -⟩ := (main_denied_short_circuit envDeniedLogMissing argsA
      "2026-01-01_00-00-00" ⟨[], rfl⟩ rfl).2.1 rfl
    rw [h]
    refine ⟨rfl, hinv, ?_⟩
    show st'.console = _
    rw [hcon]
    rfl
  · exact (main_denied_short_circuit envDeniedLogDenied argsA
      "2026-01-01_00-00-00" ⟨[], rfl⟩ rfl).2.2 rfl

/-! ### C9 -/

/-- C9: the `--env-dir` argument has no effect on the program's behaviour:
two runs differing only in `env_dir` produce identical results (hence
identical command invocations and identical log output), because the parsed
value is bound to the unused local `venv_dir` and the virtual environment is
always created with the current interpreter. -/
theorem main_ignores_env_dir (env : Env) (e₁ e₂ lf pf ts : String) :
    main env ⟨e₁, lf, pf⟩ ts = main env ⟨e₂, lf, pf⟩ ts := rfl

end PyStdRules
